import Mathlib

/-!
Verification of the ingestion-and-retrieval pipeline of a PDF RAG service.

The Python sources (backend/pdf_processor.py, backend/rag_service.py,
backend/main.py, backend/config.py) are shallowly embedded below:
strings become `List Char` (for the chunking algorithm) or `String`
(for the prompt/result plumbing), Python exceptions become `Except` /
explicit outcome values, and external collaborators (embedding model,
vector index, generation model, SQL session) become explicit oracle
parameters.  Python slice / `str.rfind` semantics (negative-index
normalisation, window clamping) are modelled faithfully.
-/

/- ### Configuration constants (backend/config.py) -/

def CHUNK_SIZE : Nat := 1000

def CHUNK_OVERLAP : Nat := 200

def MAX_FILE_SIZE : Nat := 52428800

def DEFAULT_TOP_K : Nat := 5

/- ### Python string primitives -/

/-- Python slice-index normalisation: a negative index counts from the end
(clamped at 0), a non-negative index is clamped at the length. -/
def pyNorm (len : Nat) (i : Int) : Nat :=
  if i < 0 then ((len : Int) + i).toNat else min i.toNat len

/-- Python `s[a:b]` on a character list. -/
def pySliceI (s : List Char) (a b : Int) : List Char :=
  (s.take (pyNorm s.length b)).drop (pyNorm s.length a)

/-- Whitespace test used by Python `str.strip()`. -/
def wsChar (c : Char) : Bool := c.isWhitespace

/-- Python `str.strip()`: remove leading and trailing whitespace. -/
def pyStrip (s : List Char) : List Char :=
  ((s.dropWhile wsChar).reverse.dropWhile wsChar).reverse

/-- `sub` occurs at position `p` of `s`, entirely inside the window `[a, b)`.
This is exactly the candidate condition of Python `s.rfind(sub, a, b)`. -/
abbrev OccIn (sub s : List Char) (a b p : Nat) : Prop :=
  a ≤ p ∧ p + sub.length ≤ b ∧ sub.isPrefixOf (s.drop p) = true

/-- Backward scan of candidate positions `k-1, k-2, …, 0` for the rightmost
occurrence of `sub` inside the window `[a, b)`. -/
def rfindBelow (sub s : List Char) (a b : Nat) : Nat → Option Nat
  | 0 => none
  | Nat.succ k => if OccIn sub s a b k then some k else rfindBelow sub s a b k

/-- Python `s.rfind(sub, a, b)` on normalised (non-negative) window bounds:
the largest position of an occurrence of `sub` inside `[a, b)`. -/
def pyRfindNat (sub s : List Char) (a b : Nat) : Option Nat :=
  rfindBelow sub s a b (b + 1)

/-- Python `s.rfind(sub, a, b)`: normalises the bounds, returns `-1` when the
pattern does not occur in the window. -/
def pyRfind (sub s : List Char) (a b : Int) : Int :=
  match pyRfindNat sub s (pyNorm s.length a) (pyNorm s.length b) with
  | some p => (p : Int)
  | none => -1

/- ### PDFProcessor.chunk_text (backend/pdf_processor.py lines 82-115) -/

/-- The sentence-ending candidates tried by `chunk_text`, in source order:
period-space, exclamation-space, question-space. -/
def sentencePuncts : List (List Char) := [['.', ' '], ['!', ' '], ['?', ' ']]

/-- The for-loop of `chunk_text` over the three punctuation-space pairs: take the first
pattern with an occurrence in `[start, e)` and snap the boundary to just after
its rightmost occurrence; otherwise keep `e`. -/
def snapLoop (text : List Char) (start e : Int) : List (List Char) → Int
  | [] => e
  | punct :: rest =>
    let lastPunct := pyRfind punct text start e
    if lastPunct = -1 then snapLoop text start e rest else lastPunct + 1

/-- Lines 94-103 of `chunk_text`: the tentative boundary is `start + chunkSize`;
if it falls strictly inside the text, try to snap it to a sentence ending. -/
def snapEnd (text : List Char) (start : Int) (chunkSize : Nat) : Int :=
  let e := start + (chunkSize : Int)
  if e < (text.length : Int) then snapLoop text start e sentencePuncts else e

/-- Line 105 of `chunk_text`: `chunk = text[start:end].strip()` with `end` the
(possibly snapped) boundary. -/
def emittedChunk (text : List Char) (chunkSize : Nat) (start : Int) : List Char :=
  pyStrip (pySliceI text start (snapEnd text start chunkSize))

/-- Lines 106-107 of `chunk_text`: append the stripped chunk unless it is empty. -/
def appendChunk (text : List Char) (chunkSize : Nat) (start : Int)
    (acc : List (List Char)) : List (List Char) :=
  if (emittedChunk text chunkSize start).isEmpty then acc
  else acc ++ [emittedChunk text chunkSize start]

/-- Line 110 of `chunk_text`: `start = end - overlap if end < len(text) else
len(text)` with `end` the (possibly snapped) boundary. -/
def nextStart (text : List Char) (chunkSize overlap : Nat) (start : Int) : Int :=
  if snapEnd text start chunkSize < (text.length : Int) then
    snapEnd text start chunkSize - (overlap : Int)
  else (text.length : Int)

/-- The `while start < len(text)` loop of `chunk_text` (lines 93-113), with an
explicit fuel bound; `none` means the fuel was exhausted, i.e. the Python loop
had not terminated after `fuel` iterations. -/
def chunkLoop (text : List Char) (chunkSize overlap : Nat) :
    Nat → Int → List (List Char) → Option (List (List Char))
  | 0, _, _ => none
  | Nat.succ fuel, start, acc =>
    if start < (text.length : Int) then
      if (text.length : Int) ≤ nextStart text chunkSize overlap start then
        some (appendChunk text chunkSize start acc)
      else
        chunkLoop text chunkSize overlap fuel (nextStart text chunkSize overlap start)
          (appendChunk text chunkSize start acc)
    else some acc

/-- `PDFProcessor.chunk_text(text, chunk_size, overlap)`: a text no longer than
`chunkSize` is returned as the single chunk `[text]`; otherwise the scan loop
runs (with explicit fuel standing for the number of loop iterations). -/
def chunk_text (text : List Char) (chunkSize overlap : Nat) (fuel : Nat) :
    Option (List (List Char)) :=
  if text.length ≤ chunkSize then some [text] else chunkLoop text chunkSize overlap fuel 0 []

/- ### Qdrant filter construction (backend/pdf_processor.py lines 224-234) -/

/-- Lines 225-234 of `search_similar_chunks`: a falsy (`None` or empty)
`document_filter` yields no filter; otherwise one `FieldCondition` per
identifier is placed under `must`. -/
def buildSearchFilter (documentFilter : Option (List String)) : Option (List String) :=
  match documentFilter with
  | none => none
  | some [] => none
  | some fs => some fs

/-- Qdrant semantics of `Filter(must=conds)`: a point qualifies iff every
condition holds, where `FieldCondition(key="document_id",
match=MatchValue(value=v))` holds iff the payload field `document_id` equals `v`. -/
def matchesMustFilter (filt : Option (List String)) (payloadDocId : String) : Bool :=
  match filt with
  | none => true
  | some conds => conds.all (fun v => payloadDocId == v)

/- ### Helper lemmas about stripping -/

lemma dropWhile_idem (p : α → Bool) (l : List α) :
    (l.dropWhile p).dropWhile p = l.dropWhile p := by
  induction l with
  | nil => rfl
  | cons a t ih =>
    by_cases h : p a = true
    · simp [List.dropWhile_cons, h, ih]
    · simp [List.dropWhile_cons, h]

lemma dropWhile_eq_self_of_front (p : α → Bool) {x u : List α}
    (hu : u.dropWhile p = u) (hx : x <+: u) : x.dropWhile p = x := by
  cases x with
  | nil => rfl
  | cons a t =>
    cases u with
    | nil => simp at hx
    | cons b s =>
      obtain ⟨r, hr⟩ := hx
      have hab : a = b := by injection hr with h1 _
      have hpb : ¬ p b = true := by
        intro hb
        rw [List.dropWhile_cons, if_pos hb] at hu
        have hlen := congrArg List.length hu
        have hle := (List.dropWhile_suffix (l := s) p).length_le
        simp at hlen
        omega
      rw [List.dropWhile_cons, hab, if_neg hpb]

lemma pyStrip_idem (s : List Char) : pyStrip (pyStrip s) = pyStrip s := by
  unfold pyStrip
  have hu_idem : (s.dropWhile wsChar).dropWhile wsChar = s.dropWhile wsChar :=
    dropWhile_idem wsChar s
  have hpref : ((s.dropWhile wsChar).reverse.dropWhile wsChar).reverse <+: s.dropWhile wsChar := by
    have hsuf : (s.dropWhile wsChar).reverse.dropWhile wsChar <:+ (s.dropWhile wsChar).reverse :=
      List.dropWhile_suffix _
    have h := List.reverse_prefix.mpr hsuf
    rwa [List.reverse_reverse] at h
  rw [dropWhile_eq_self_of_front wsChar hu_idem hpref, List.reverse_reverse,
    dropWhile_idem]

lemma emittedChunk_stripped (text : List Char) (cs : Nat) (start : Int) :
    pyStrip (emittedChunk text cs start) = emittedChunk text cs start :=
  pyStrip_idem _

/-- Invariant of the chunking loop: every chunk in the output is stripped and
non-empty, provided every chunk already accumulated is. -/
lemma chunkLoop_chunks_stripped (text : List Char) (cs ov : Nat) :
    ∀ (fuel : Nat) (start : Int) (acc out : List (List Char)),
      (∀ c ∈ acc, pyStrip c = c ∧ c ≠ []) →
      chunkLoop text cs ov fuel start acc = some out →
      ∀ c ∈ out, pyStrip c = c ∧ c ≠ [] := by
  intro fuel
  induction fuel with
  | zero => intro start acc out _ h; exact absurd h (by simp [chunkLoop])
  | succ n ih =>
    intro start acc out hacc h
    have happ : ∀ c ∈ appendChunk text cs start acc, pyStrip c = c ∧ c ≠ [] := by
      intro c hc
      unfold appendChunk at hc
      split at hc
      · exact hacc c hc
      · rcases List.mem_append.mp hc with hmem | hmem
        · exact hacc c hmem
        · rcases List.mem_singleton.mp hmem with rfl
          refine ⟨emittedChunk_stripped text cs start, ?_⟩
          intro hnil
          rename_i hne
          exact hne (List.isEmpty_iff.mpr hnil)
    simp only [chunkLoop] at h
    split at h
    · split at h
      · rcases Option.some.inj h with rfl
        exact happ
      · exact ih _ _ _ happ h
    · rcases Option.some.inj h with rfl
      exact hacc

/- ### Claim C1 -/

/-- Claim C1 (refuted, code bug): `search_similar_chunks` builds the document
filter as `Filter(must=[...])` — a conjunction.  Under Qdrant `must` semantics
a payload would have to equal every identifier in the filter simultaneously, so
for the two-element filter `["A", "B"]` no payload qualifies at all: in
particular the identifier `"A"`, although a member of the filter set, is
excluded, contradicting the claimed logical-OR semantics under which a match
belonging to `A` alone is returnable. -/
theorem c1_must_filter_excludes_all :
    ("A" ∈ ["A", "B"]) ∧
      ∀ d : String, matchesMustFilter (buildSearchFilter (some ["A", "B"])) d = false := by
  refine ⟨by simp, ?_⟩
  intro d
  simp only [buildSearchFilter, matchesMustFilter, List.all_cons, List.all_nil,
    Bool.and_true]
  by_cases h : d = "A"
  · subst h
    decide
  · simp [h]

/- ### Claim C2 -/

/-- Claim C2 (refuted, code bug): `chunk_text` does not always terminate.  On
the text `"yyyy. zzzzzzzzzzzzzzzzzzzz"` with `chunk_size=10, overlap=5` (an
overlap strictly smaller than the chunk size, so no configuration guard could
even apply) the boundary snaps to just after the `". "` at index 4, giving
`end=5` and next start `5 - 5 = 0`: the window start never advances and the
`while` loop runs forever — for every fuel bound the loop is still running. -/
theorem c2_chunk_text_nonterminating :
    nextStart ("yyyy. zzzzzzzzzzzzzzzzzzzz".toList) 10 5 0 = 0
    ∧ ∀ fuel : Nat, chunk_text ("yyyy. zzzzzzzzzzzzzzzzzzzz".toList) 10 5 fuel = none := by
  refine ⟨rfl, ?_⟩
  have key : ∀ (fuel : Nat) (acc : List (List Char)),
      chunkLoop ("yyyy. zzzzzzzzzzzzzzzzzzzz".toList) 10 5 fuel 0 acc = none := by
    intro fuel
    induction fuel with
    | zero => intro acc; rfl
    | succ n ih =>
      intro acc
      have hstep : chunkLoop ("yyyy. zzzzzzzzzzzzzzzzzzzz".toList) 10 5 (n + 1) 0 acc
          = chunkLoop ("yyyy. zzzzzzzzzzzzzzzzzzzz".toList) 10 5 n 0
              (appendChunk ("yyyy. zzzzzzzzzzzzzzzzzzzz".toList) 10 0 acc) := rfl
      rw [hstep]
      exact ih _
  intro fuel
  unfold chunk_text
  rw [if_neg (by decide)]
  exact key fuel []

/- ### Claim C10 -/

/-- Claim C10 as stated is false: a text no longer than `chunkSize` is returned
verbatim as the single chunk, without trimming — `" a "` (which has leading and
trailing whitespace) is emitted unchanged. -/
theorem c10_counterexample :
    chunk_text (" a ".toList) 10 2 1 = some [" a ".toList]
    ∧ pyStrip (" a ".toList) ≠ " a ".toList := by
  exact ⟨rfl, by decide⟩

/-- Claim C10 (amended): for texts strictly longer than `chunkSize`, every
string emitted by `chunk_text` is trimmed (it equals its own strip) and
non-empty (empty-after-trim substrings are skipped); a text no longer than
`chunkSize` is instead returned verbatim as the single chunk `[text]`,
untrimmed. -/
theorem c10_chunks_trimmed_nonempty :
    (∀ (text : List Char) (cs ov fuel : Nat) (out : List (List Char)),
        cs < text.length → chunk_text text cs ov fuel = some out →
        ∀ c ∈ out, pyStrip c = c ∧ c ≠ [])
    ∧ ∀ (text : List Char) (cs ov fuel : Nat),
        text.length ≤ cs → chunk_text text cs ov fuel = some [text] := by
  constructor
  · intro text cs ov fuel out hlen h
    unfold chunk_text at h
    rw [if_neg (by omega)] at h
    exact chunkLoop_chunks_stripped text cs ov fuel 0 [] out (by simp) h
  · intro text cs ov fuel hlen
    unfold chunk_text
    rw [if_pos hlen]

/-- Witness for C10: a concrete long text whose chunks are all trimmed and
non-empty. -/
theorem c10_witness :
    pyStrip ("abc".toList) = "abc".toList ∧ "abc".toList ≠ [] :=
  c10_chunks_trimmed_nonempty.1 ("abcdef".toList) 3 1 10
    (["abc".toList, "cde".toList, "ef".toList]) (by decide) rfl ("abc".toList) (by decide)

/- ### RAGService (backend/rag_service.py) -/

/-- One retrieval result as shaped by `search_similar_chunks` (lines 246-256):
score plus the payload fields. -/
structure RChunk where
  document_id : String
  page_number : Nat
  chunk_index : Nat
  content : String
  filename : String
  score : Int
deriving DecidableEq

/-- One entry of the `sources` list built by `generate_response` (lines 64-74). -/
structure Source where
  document_id : String
  document_name : String
  page_number : Nat
  chunk_index : Nat
  content : String
  relevance_score : Int
deriving DecidableEq

/-- The dict returned by `generate_response` / `answer_question`. -/
structure AnswerResult where
  response : String
  sources : List Source
  context_chunks : List RChunk
  response_time_ms : Nat
  tokens_used : Nat
deriving DecidableEq

/-- The fixed decline message returned by `create_rag_prompt` when there are no
context chunks and `only_answer_if_sources` is set (line 24). -/
def noRelevantInfoMsg : String :=
  "I couldn\x27t find any relevant information in the uploaded documents to answer your question. Please try rephrasing your question or upload relevant documents."

/-- One labeled context block of the RAG prompt (line 29):
`[Document: <filename>, Page: <n>]\n<content>`. -/
def contextBlock (c : RChunk) : String :=
  "[Document: " ++ c.filename ++ ", Page: " ++ toString c.page_number ++ "]\n" ++ c.content

/-- The f-string template of lines 33-47, instantiated with the joined context
text and the user query. -/
def ragPromptTemplate (contextText query : String) : String :=
  "You are a helpful AI assistant that answers questions based on provided PDF document content. \n\nYour task is to:\n1. Answer the user\x27s question using ONLY the information provided in the context below\n2. Be accurate and specific\n3. Include citations in your response by referencing the document name and page number\n4. If the context doesn\x27t contain enough information to answer the question completely, say so clearly\n5. Do not make up information that isn\x27t in the provided context\n\nContext from PDF documents:\n"
    ++ contextText
    ++ "\n\nUser Question: " ++ query
    ++ "\n\nPlease provide a comprehensive answer based on the context above. Include specific citations (document name and page number) for each piece of information you reference."

/-- `RAGService.create_rag_prompt` (lines 20-49). -/
def create_rag_prompt (query : String) (contextChunks : List RChunk)
    (onlyAnswerIfSources : Bool) : String :=
  if contextChunks.isEmpty && onlyAnswerIfSources then noRelevantInfoMsg
  else ragPromptTemplate (String.intercalate "\n\n" (contextChunks.map contextBlock)) query

/-- Python `len(s.split())`: the number of maximal whitespace-free runs. -/
def countWords (s : String) : Nat :=
  ((s.split fun c => c.isWhitespace).filter fun w => w ≠ "").length

/-- The source shaping of `generate_response` lines 66-74. -/
def mkSource (c : RChunk) : Source :=
  { document_id := c.document_id, document_name := c.filename,
    page_number := c.page_number, chunk_index := c.chunk_index,
    content := c.content, relevance_score := c.score }

/-- `RAGService.generate_response` (lines 51-92).  The Gemini call is the
oracle `gen`; a raised exception is its `.error` case and is caught by the
`except` block of lines 84-92.  `elapsedMs` stands for the measured wall-clock
time of the call. -/
def generate_response (gen : String → Except String String) (query : String)
    (contextChunks : List RChunk) (onlyAnswerIfSources : Bool) (elapsedMs : Nat) :
    AnswerResult :=
  match gen (create_rag_prompt query contextChunks onlyAnswerIfSources) with
  | .ok text =>
    { response := text,
      sources := contextChunks.map mkSource,
      context_chunks := contextChunks,
      response_time_ms := elapsedMs,
      tokens_used := if text = "" then 0 else countWords text }
  | .error e =>
    { response := "I encountered an error while generating the response: " ++ e,
      sources := [],
      context_chunks := [],
      response_time_ms := elapsedMs,
      tokens_used := 0 }

/-- `RAGService.answer_question` (lines 94-117).  The retrieval step
`search_similar_chunks` is the oracle `search` (taking query, top_k and
document_filter); a raised exception — embedding failure or index failure,
both re-raised by `search_similar_chunks` — is its `.error` case and is caught
by the `except` block of lines 109-117. -/
def answer_question (search : String → Nat → Option (List String) → Except String (List RChunk))
    (gen : String → Except String String) (query : String) (topK : Nat)
    (documentFilter : Option (List String)) (onlyAnswerIfSources : Bool)
    (elapsedMs : Nat) : AnswerResult :=
  match search query topK documentFilter with
  | .ok chunks => generate_response gen query chunks onlyAnswerIfSources elapsedMs
  | .error e =>
    { response := "I encountered an error while processing your question: " ++ e,
      sources := [],
      context_chunks := [],
      response_time_ms := 0,
      tokens_used := 0 }

/- ### Claim C3 -/

/-- Claim C3 as stated is false: with no matches and `only_answer_if_sources`
set, the answer returned is whatever the generation provider produces — here
two different provider behaviours yield two different answers, neither of which
is the fixed decline message.  Had the composer short-circuited without
invoking the provider, the answer could not depend on the provider at all. -/
theorem c3_counterexample :
    (generate_response (fun _ => Except.ok "MODEL OUTPUT") "q" [] true 0).response
      = "MODEL OUTPUT"
    ∧ (generate_response (fun _ => Except.ok "OTHER OUTPUT") "q" [] true 0).response
      = "OTHER OUTPUT"
    ∧ "MODEL OUTPUT" ≠ noRelevantInfoMsg := by
  exact ⟨rfl, rfl, by decide⟩

/-- Claim C3 (amended): when the search returns no matches and
`only_answer_if_sources` is true, `create_rag_prompt` returns the fixed
decline message, but `generate_response` then passes that message as the
prompt to the generation provider — the provider IS invoked, and the returned
answer is the output of the provider on that prompt (or the caught-error text if it
fails), with empty sources in either case. -/
theorem c3_decline_prompt_still_invokes_generator
    (gen : String → Except String String) (q : String) (k : Nat)
    (f : Option (List String)) (el : Nat) (t e : String) :
    create_rag_prompt q [] true = noRelevantInfoMsg
    ∧ (gen noRelevantInfoMsg = .ok t →
        (answer_question (fun _ _ _ => Except.ok []) gen q k f true el).response = t
        ∧ (answer_question (fun _ _ _ => Except.ok []) gen q k f true el).sources = [])
    ∧ (gen noRelevantInfoMsg = .error e →
        (answer_question (fun _ _ _ => Except.ok []) gen q k f true el).response
          = "I encountered an error while generating the response: " ++ e
        ∧ (answer_question (fun _ _ _ => Except.ok []) gen q k f true el).sources = []) := by
  have hprompt : create_rag_prompt q [] true = noRelevantInfoMsg := rfl
  refine ⟨hprompt, ?_, ?_⟩
  · intro h
    simp [answer_question, generate_response, hprompt, h]
  · intro h
    simp [answer_question, generate_response, hprompt, h]

/-- Witness for C3: a provider answering `"OUT"` to any prompt makes the
composer return `"OUT"` (not the decline message) with empty sources. -/
theorem c3_witness :
    (answer_question (fun _ _ _ => Except.ok []) (fun _ => Except.ok "OUT") "q" 5 none true 3).response = "OUT"
    ∧ (answer_question (fun _ _ _ => Except.ok []) (fun _ => Except.ok "OUT") "q" 5 none true 3).sources = [] :=
  (c3_decline_prompt_still_invokes_generator (fun _ => Except.ok "OUT") "q" 5 none 3 "OUT" "e").2.1 rfl

/- ### Claim C6 -/

/-- Claim C6 (confirmed): `answer_question` never raises — every combination
of retrieval and generation outcomes produces a shaped `AnswerResult`.  A
search failure is caught and converted into an error-describing answer with
empty sources, zeroed timing and token count; a generation failure likewise
(with the measured elapsed time); on success the text of the provider, the shaped
sources and the elapsed time are returned.  Python exceptions of the embedded
oracles are their `.error` cases, so the three conjuncts cover every run. -/
theorem c6_answer_question_total
    (search : String → Nat → Option (List String) → Except String (List RChunk))
    (gen : String → Except String String) (q : String) (k : Nat)
    (f : Option (List String)) (oais : Bool) (el : Nat) :
    (∀ e, search q k f = .error e →
      answer_question search gen q k f oais el =
        { response := "I encountered an error while processing your question: " ++ e,
          sources := [], context_chunks := [], response_time_ms := 0, tokens_used := 0 })
    ∧ (∀ chunks e, search q k f = .ok chunks →
        gen (create_rag_prompt q chunks oais) = .error e →
        answer_question search gen q k f oais el =
          { response := "I encountered an error while generating the response: " ++ e,
            sources := [], context_chunks := [], response_time_ms := el, tokens_used := 0 })
    ∧ (∀ chunks t, search q k f = .ok chunks →
        gen (create_rag_prompt q chunks oais) = .ok t →
        (answer_question search gen q k f oais el).response = t
        ∧ (answer_question search gen q k f oais el).sources = chunks.map mkSource
        ∧ (answer_question search gen q k f oais el).response_time_ms = el) := by
  refine ⟨?_, ?_, ?_⟩
  · intro e hs
    simp [answer_question, hs]
  · intro chunks e hs hg
    simp [answer_question, generate_response, hs, hg]
  · intro chunks t hs hg
    simp [answer_question, generate_response, hs, hg]

/-- Witness for C6: a concrete failing search still yields a shaped result. -/
theorem c6_witness :
    answer_question (fun _ _ _ => Except.error "boom") (fun _ => Except.ok "y") "q" 5 none false 7
      = { response := "I encountered an error while processing your question: boom",
          sources := [], context_chunks := [], response_time_ms := 0, tokens_used := 0 } :=
  (c6_answer_question_total (fun _ _ _ => Except.error "boom") (fun _ => Except.ok "y")
    "q" 5 none false 7).1 "boom" rfl

/- ### Document rows and upload_document (backend/models.py, backend/main.py lines 184-251) -/

/-- The `Document` SQLAlchemy row. -/
structure Document where
  id : String
  filename : String
  original_filename : String
  file_size : Nat
  content_hash : String
  processing_status : String
  error_message : Option String
  page_count : Option Nat
  chunk_count : Option Nat
deriving DecidableEq

/-- The `DocumentUploadResponse` schema. -/
structure UploadResponse where
  id : String
  filename : String
  status : String
  message : String
deriving DecidableEq

/-- `upload_document` (backend/main.py lines 184-251).  `hashFile` is the
content-fingerprint function (`calculate_file_hash`, a SHA-256 over the saved
bytes), `db` the list of Document rows, `fileId` the generated `uuid4`.  The
result carries the HTTP response, the new table state and whether a background
`process_pdf` task was scheduled; `.error` is a raised `HTTPException`. -/
def upload_document (hashFile : List UInt8 → String) (db : List Document)
    (fileBytes : List UInt8) (origFilename : String) (fileId : String) :
    Except String (UploadResponse × List Document × Bool) :=
  if ".pdf".data.isSuffixOf (origFilename.data.map Char.toLower) then
    if fileBytes.length > MAX_FILE_SIZE then Except.error "File too large"
    else
      match db.find? (fun d => d.content_hash == hashFile fileBytes) with
      | some existing =>
        Except.ok ({ id := existing.id, filename := existing.filename,
                     status := "already_exists",
                     message := "Document already uploaded" }, db, false)
      | none =>
        Except.ok ({ id := fileId, filename := origFilename, status := "uploaded",
                     message := "Document uploaded successfully and processing started" },
          db ++ [{ id := fileId, filename := fileId ++ "_" ++ origFilename,
                   original_filename := origFilename,
                   file_size := fileBytes.length,
                   content_hash := hashFile fileBytes,
                   processing_status := "pending",
                   error_message := none, page_count := none, chunk_count := none }],
          true)
  else Except.error "Only PDF files are allowed"

lemma find?_append_of_none {α} (p : α → Bool) {l : List α} (l' : List α)
    (h : l.find? p = none) : (l ++ l').find? p = l'.find? p := by
  induction l with
  | nil => rfl
  | cons a t ih =>
    cases hpa : p a with
    | true => simp [List.find?_cons, hpa] at h
    | false =>
      simp only [List.find?_cons, hpa] at h
      rw [List.cons_append]
      simp only [List.find?_cons, hpa]
      exact ih h

/- ### Claim C4 -/

/-- Claim C4 (confirmed): uploading bytes whose fingerprint is already stored
creates no new Document row and schedules no processing task.  A first upload
of fresh bytes appends one row; a second upload whose bytes hash to the same
fingerprint returns the identity of the stored document with status
`already_exists`, leaves the table unchanged, and schedules nothing — so at
most one Document exists per content fingerprint. -/
theorem c4_duplicate_upload_noop (hashFile : List UInt8 → String) (db : List Document)
    (b1 b2 : List UInt8) (n1 n2 id1 id2 : String)
    (hvalid1 : ".pdf".data.isSuffixOf (n1.data.map Char.toLower) = true)
    (hsize1 : ¬ b1.length > MAX_FILE_SIZE)
    (hvalid2 : ".pdf".data.isSuffixOf (n2.data.map Char.toLower) = true)
    (hsize2 : ¬ b2.length > MAX_FILE_SIZE)
    (hfresh : db.find? (fun d => d.content_hash == hashFile b1) = none)
    (hh : hashFile b2 = hashFile b1) :
    ∃ newdoc : Document,
      upload_document hashFile db b1 n1 id1
        = Except.ok ({ id := id1, filename := n1, status := "uploaded",
                       message := "Document uploaded successfully and processing started" },
            db ++ [newdoc], true)
      ∧ newdoc.id = id1
      ∧ upload_document hashFile (db ++ [newdoc]) b2 n2 id2
        = Except.ok ({ id := id1, filename := id1 ++ "_" ++ n1,
                       status := "already_exists",
                       message := "Document already uploaded" },
            db ++ [newdoc], false) := by
  refine ⟨{ id := id1, filename := id1 ++ "_" ++ n1, original_filename := n1,
            file_size := b1.length, content_hash := hashFile b1,
            processing_status := "pending", error_message := none,
            page_count := none, chunk_count := none }, ?_, rfl, ?_⟩
  · simp [upload_document, hvalid1, hsize1, hfresh]
  · simp only [upload_document, hvalid2, if_true, hsize2, if_false, hh,
      find?_append_of_none _ _ hfresh]
    simp [List.find?]

/-- Witness for C4: concrete duplicate upload of empty bytes under the name
`a.pdf`. -/
theorem c4_witness :
    ∃ newdoc : Document,
      upload_document (fun _ => "h") [] [] "a.pdf" "i1"
        = Except.ok ({ id := "i1", filename := "a.pdf", status := "uploaded",
                       message := "Document uploaded successfully and processing started" },
            [] ++ [newdoc], true)
      ∧ newdoc.id = "i1"
      ∧ upload_document (fun _ => "h") ([] ++ [newdoc]) [] "a.pdf" "i2"
        = Except.ok ({ id := "i1", filename := "i1" ++ "_" ++ "a.pdf",
                       status := "already_exists",
                       message := "Document already uploaded" },
            [] ++ [newdoc], false) :=
  c4_duplicate_upload_noop (fun _ => "h") [] [] [] "a.pdf" "a.pdf" "i1" "i2"
    (by decide) (by decide) (by decide) (by decide) rfl rfl

/- ### PDFProcessor.process_pdf (backend/pdf_processor.py lines 126-216) -/

/-- One extracted page (`extract_text_from_pdf` result entry). -/
structure Page where
  page_number : Nat
  content : List Char
deriving DecidableEq

/-- The per-chunk metadata dict built in lines 148-163. -/
structure ChunkMeta where
  chunk_uuid : String
  chunk_id : String
  document_id : String
  page_number : Nat
  chunk_index : Nat
  content : List Char
deriving DecidableEq

/-- A Qdrant `PointStruct` as built in lines 171-182 (payload flattened). -/
structure Point where
  id : String
  vector : List Int
  payload_document_id : String
  payload_page_number : Nat
  payload_chunk_index : Nat
  payload_content : List Char
  payload_filename : String
  payload_chunk_id : String
deriving DecidableEq

/-- A `DocumentChunk` row as built in lines 193-199. -/
structure ChunkRow where
  document_id : String
  chunk_index : Nat
  page_number : Nat
  content_preview : List Char
  vector_id : String
deriving DecidableEq

/-- Observable events of one `process_pdf` run, in program order: status
mutations, `db.commit()` calls, the batched Qdrant upsert (line 186), and each
`db.add(chunk)` of a relational Chunk row (line 200). -/
inductive Ev where
  | statusSet (s : String)
  | commitEv
  | upsertEv
  | addChunkEv (row : ChunkRow)
deriving DecidableEq

/-- How one `process_pdf` invocation ends: a normal boolean return, a
propagated Python exception, or a hang inside the chunking loop. -/
inductive Outcome where
  | ret (b : Bool)
  | raised (e : String)
  | hang
deriving DecidableEq

/-- Result of one `process_pdf` run: outcome, final Document row state,
relational Chunk rows added, points upserted into the index, event trace. -/
structure ProcResult where
  outcome : Outcome
  doc : Option Document
  chunkRows : List ChunkRow
  points : List Point
  trace : List Ev
deriving DecidableEq

/-- Line 197: `content_preview = content[:200] + "..."` when the content is
longer than 200 characters, else the content itself. -/
def contentPreview (c : List Char) : List Char :=
  if c.length > 200 then c.take 200 ++ "...".data else c

/-- Lines 145-163: chunk every page in page order with the default
configuration, assigning each chunk a fresh uuid (the oracle `uuidGen`,
numbered in creation order), the readable id `{document_id}_{page}_{i}` (with
`i` the per-page index), and the document-wide running `chunk_index`.
`none` means the chunking loop hung on some page. -/
def metasForPages (uuidGen : Nat → String) (documentId : String) (fuel : Nat) :
    List Page → Nat → Option (List ChunkMeta)
  | [], _ => some []
  | pg :: rest, count =>
    match chunk_text pg.content CHUNK_SIZE CHUNK_OVERLAP fuel with
    | none => none
    | some pageChunks =>
      match metasForPages uuidGen documentId fuel rest (count + pageChunks.length) with
      | none => none
      | some more =>
        some ((pageChunks.enum.map fun ic =>
          { chunk_uuid := uuidGen (count + ic.1),
            chunk_id := documentId ++ "_" ++ toString pg.page_number ++ "_" ++ toString ic.1,
            document_id := documentId,
            page_number := pg.page_number,
            chunk_index := count + ic.1,
            content := ic.2 }) ++ more)

/-- Lines 171-182: build one Qdrant point per chunk; the payload carries the
document id, page number, running chunk index, full chunk text, the Document
row field `filename`, and the readable chunk id. -/
def mkPoint (doc : Document) (m : ChunkMeta) (v : List Int) : Point :=
  { id := m.chunk_uuid, vector := v,
    payload_document_id := m.document_id,
    payload_page_number := m.page_number,
    payload_chunk_index := m.chunk_index,
    payload_content := m.content,
    payload_filename := doc.filename,
    payload_chunk_id := m.chunk_id }

/-- Lines 193-199: build one relational Chunk row per chunk. -/
def mkChunkRow (m : ChunkMeta) : ChunkRow :=
  { document_id := m.document_id, chunk_index := m.chunk_index,
    page_number := m.page_number, content_preview := contentPreview m.content,
    vector_id := m.chunk_uuid }

/-- The `except` handler of lines 210-216 when `document` is bound to a row:
set status `failed`, persist the error message, return `False`. -/
def failedDoc (doc : Document) (e : String) : Document :=
  { doc with processing_status := "failed", error_message := some e }

/-- `PDFProcessor.process_pdf` (lines 126-216).  `docLookup` is the result of
the Document query (line 130); `extract`, `embed` and `upsert` are the
fallible collaborators (PDF extraction, embedding model, Qdrant upsert), whose
raised exceptions are their `.error` cases, caught by the handler of lines
210-216.  When the lookup returns no row, the raised `ValueError` is caught
but the handler itself assigns `failed` to the processing status of `document` with
`document = None`, so an `AttributeError` propagates out of `process_pdf`. -/
def process_pdf (docLookup : Option Document)
    (extract : Except String (List Page))
    (embed : List (List Char) → Except String (List (List Int)))
    (upsert : List Point → Except String Unit)
    (uuidGen : Nat → String) (documentId : String) (fuel : Nat) : ProcResult :=
  match docLookup with
  | none =>
    { outcome := .raised "AttributeError: NoneType object has no attribute processing_status",
      doc := none, chunkRows := [], points := [], trace := [] }
  | some doc0 =>
    let doc1 : Document := { doc0 with processing_status := "processing" }
    match extract with
    | .error e =>
      { outcome := .ret false, doc := some (failedDoc doc1 e), chunkRows := [],
        points := [],
        trace := [Ev.statusSet "processing", Ev.commitEv, Ev.statusSet "failed", Ev.commitEv] }
    | .ok pages =>
      let doc2 : Document := { doc1 with page_count := some pages.length }
      match metasForPages uuidGen documentId fuel pages 0 with
      | none =>
        { outcome := .hang, doc := some doc2, chunkRows := [], points := [],
          trace := [Ev.statusSet "processing", Ev.commitEv] }
      | some metas =>
        match embed (metas.map fun m => m.content) with
        | .error e =>
          { outcome := .ret false, doc := some (failedDoc doc2 e), chunkRows := [],
            points := [],
            trace := [Ev.statusSet "processing", Ev.commitEv, Ev.statusSet "failed", Ev.commitEv] }
        | .ok embs =>
          match upsert ((metas.zip embs).map fun mv => mkPoint doc2 mv.1 mv.2) with
          | .error e =>
            { outcome := .ret false, doc := some (failedDoc doc2 e), chunkRows := [],
              points := [],
              trace := [Ev.statusSet "processing", Ev.commitEv, Ev.statusSet "failed", Ev.commitEv] }
          | .ok _ =>
            { outcome := .ret true,
              doc := some ({ doc2 with
                processing_status := "completed"
                chunk_count := some metas.length }),
              chunkRows := metas.map mkChunkRow,
              points := (metas.zip embs).map fun mv => mkPoint doc2 mv.1 mv.2,
              trace := [Ev.statusSet "processing", Ev.commitEv, Ev.upsertEv]
                ++ (metas.map mkChunkRow).map Ev.addChunkEv
                ++ [Ev.statusSet "completed", Ev.commitEv] }

/- ### Claim C5 -/

/-- Claim C5 (refuted, code bug): when the Document lookup itself fails — no
row for the given id — the raised `ValueError` is caught, but the handler then
dereferences `document = None`, so an `AttributeError` propagates out of
`process_pdf`.  By contrast, a failure of a later step (here the extraction)
with the row present is caught and recorded: the run returns `False`, the row
is `failed` and carries the error message. -/
theorem c5_lookup_failure_propagates :
    (process_pdf none (Except.ok []) (fun _ => Except.ok []) (fun _ => Except.ok ())
        (fun _ => "u") "d1" 1).outcome
      = Outcome.raised "AttributeError: NoneType object has no attribute processing_status"
    ∧ (process_pdf
        (some { id := "d1", filename := "x_a.pdf", original_filename := "a.pdf",
                file_size := 3, content_hash := "h", processing_status := "pending",
                error_message := none, page_count := none, chunk_count := none })
        (Except.error "ExtractionFailure: boom") (fun _ => Except.ok [])
        (fun _ => Except.ok ()) (fun _ => "u") "d1" 1).outcome = Outcome.ret false
    ∧ (process_pdf
        (some { id := "d1", filename := "x_a.pdf", original_filename := "a.pdf",
                file_size := 3, content_hash := "h", processing_status := "pending",
                error_message := none, page_count := none, chunk_count := none })
        (Except.error "ExtractionFailure: boom") (fun _ => Except.ok [])
        (fun _ => Except.ok ()) (fun _ => "u") "d1" 1).doc
      = some { id := "d1", filename := "x_a.pdf", original_filename := "a.pdf",
               file_size := 3, content_hash := "h", processing_status := "failed",
               error_message := some "ExtractionFailure: boom", page_count := none,
               chunk_count := none } :=
  ⟨rfl, rfl, rfl⟩

/- ### Claim C8 -/

lemma addChunk_mem_of_eq {tr pre suf : List Ev} {r : ChunkRow}
    (h : tr = pre ++ Ev.addChunkEv r :: suf) : Ev.addChunkEv r ∈ tr := by
  subst h
  exact List.mem_append_right _ (List.mem_cons_self _ _)

lemma upsert_mem_pre {B : List Ev} {r : ChunkRow} :
    ∀ (A pre suf : List Ev), (∀ row : ChunkRow, Ev.addChunkEv row ∉ A) →
      A ++ Ev.upsertEv :: B = pre ++ Ev.addChunkEv r :: suf → Ev.upsertEv ∈ pre := by
  intro A
  induction A with
  | nil =>
    intro pre suf _ h
    cases pre with
    | nil => simp at h
    | cons p pre' =>
      rw [List.nil_append, List.cons_append] at h
      have hp : Ev.upsertEv = p := by injection h with h1 _
      rw [← hp]
      exact List.mem_cons_self _ _
  | cons a A' ih =>
    intro pre suf hA h
    cases pre with
    | nil =>
      rw [List.cons_append, List.nil_append] at h
      have ha : a = Ev.addChunkEv r := by injection h with h1 _
      exact absurd (ha ▸ List.mem_cons_self a A') (ha ▸ hA r)
    | cons p pre' =>
      rw [List.cons_append, List.cons_append] at h
      have h2 : A' ++ Ev.upsertEv :: B = pre' ++ Ev.addChunkEv r :: suf := by
        injection h with _ h2
      exact List.mem_cons_of_mem _
        (ih pre' suf (fun row hrow => hA row (List.mem_cons_of_mem _ hrow)) h2)

/-- Claim C8 (confirmed): in every run of `process_pdf`, any insertion of a
relational Chunk row is strictly preceded in the event trace by the batched
vector upsert — whenever the trace splits as `pre ++ [addChunk r] ++ suf`, the
upsert event already occurs in `pre`.  In particular no commit can persist a
Chunk row before its vectors are in the index, and runs that fail before the
indexing stage insert no Chunk rows at all. -/
theorem c8_upsert_before_chunk_rows (docLookup : Option Document)
    (extract : Except String (List Page))
    (embed : List (List Char) → Except String (List (List Int)))
    (upsert : List Point → Except String Unit)
    (uuidGen : Nat → String) (documentId : String) (fuel : Nat)
    (pre suf : List Ev) (r : ChunkRow)
    (h : (process_pdf docLookup extract embed upsert uuidGen documentId fuel).trace
      = pre ++ Ev.addChunkEv r :: suf) :
    Ev.upsertEv ∈ pre := by
  cases docLookup with
  | none =>
    have hmem := addChunk_mem_of_eq h
    simp [process_pdf] at hmem
  | some doc0 =>
    cases extract with
    | error e =>
      have hmem := addChunk_mem_of_eq h
      simp [process_pdf] at hmem
    | ok pages =>
      simp only [process_pdf] at h
      split at h
      · have hmem := addChunk_mem_of_eq h
        simp at hmem
      · split at h
        · have hmem := addChunk_mem_of_eq h
          simp at hmem
        · split at h
          · have hmem := addChunk_mem_of_eq h
            simp at hmem
          · exact upsert_mem_pre [Ev.statusSet "processing", Ev.commitEv] pre suf
              (by intro row; simp) h

/-- Witness for C8: in a concrete successful run the single Chunk-row insert
decomposes the trace with the upsert in its prefix. -/
theorem c8_witness :
    Ev.upsertEv ∈ [Ev.statusSet "processing", Ev.commitEv, Ev.upsertEv] :=
  c8_upsert_before_chunk_rows
    (some { id := "d1", filename := "x_a.pdf", original_filename := "a.pdf",
            file_size := 3, content_hash := "h", processing_status := "pending",
            error_message := none, page_count := none, chunk_count := none })
    (Except.ok [{ page_number := 1, content := "hello".toList }])
    (fun ts => Except.ok (ts.map fun _ => [0]))
    (fun _ => Except.ok ()) (fun n => "u" ++ toString n) "d1" 1
    [Ev.statusSet "processing", Ev.commitEv, Ev.upsertEv]
    [Ev.statusSet "completed", Ev.commitEv]
    { document_id := "d1", chunk_index := 0, page_number := 1,
      content_preview := "hello".toList, vector_id := "u0" }
    (by decide)

/- ### Claim C9 -/

lemma metasForPages_docId (uuidGen : Nat → String) (documentId : String) (fuel : Nat) :
    ∀ (pages : List Page) (count : Nat) (metas : List ChunkMeta),
      metasForPages uuidGen documentId fuel pages count = some metas →
      ∀ m ∈ metas, m.document_id = documentId := by
  intro pages
  induction pages with
  | nil =>
    intro count metas h m hm
    simp only [metasForPages] at h
    rcases Option.some.inj h with rfl
    simp at hm
  | cons pg rest ih =>
    intro count metas h m hm
    simp only [metasForPages] at h
    split at h
    · exact absurd h (by simp)
    · split at h
      · exact absurd h (by simp)
      · rcases Option.some.inj h with rfl
        rcases List.mem_append.mp hm with hmem | hmem
        · rcases List.mem_map.mp hmem with ⟨ic, _, rfl⟩
          rfl
        · exact ih _ _ (by assumption) m hmem

/-- Claim C9 as stated is false: the payload field `filename` is
`Document.filename`, which `upload_document` sets to the uuid-prefixed on-disk
name `{file_id}_{original}`, not the display name the user uploaded the file
under.  Concretely, uploading `report.pdf` stores `f1_report.pdf`, and the
payload of the indexed point (hence the `[Document: ...]` citation label)
carries `f1_report.pdf` ≠ `report.pdf`. -/
theorem c9_counterexample :
    upload_document (fun _ => "h") [] [] "report.pdf" "f1"
      = Except.ok ({ id := "f1", filename := "report.pdf", status := "uploaded",
                     message := "Document uploaded successfully and processing started" },
          [{ id := "f1", filename := "f1_report.pdf", original_filename := "report.pdf",
             file_size := 0, content_hash := "h", processing_status := "pending",
             error_message := none, page_count := none, chunk_count := none }], true)
    ∧ (process_pdf
        (some { id := "f1", filename := "f1_report.pdf", original_filename := "report.pdf",
                file_size := 0, content_hash := "h", processing_status := "pending",
                error_message := none, page_count := none, chunk_count := none })
        (Except.ok [{ page_number := 1, content := "hello".toList }])
        (fun ts => Except.ok (ts.map fun _ => [0]))
        (fun _ => Except.ok ()) (fun n => "u" ++ toString n) "f1" 1).points.map
          Point.payload_filename
      = ["f1_report.pdf"]
    ∧ "f1_report.pdf" ≠ "report.pdf" := by
  refine ⟨rfl, rfl, by decide⟩

/-- Claim C9 (amended): the payload of every indexed point carries the Document
row field `filename` — the stored on-disk name `{file_id}_{original_filename}` —
as its display label (together with the owning document identifier), rather
than the original name the user uploaded the file under. -/
theorem c9_payload_carries_stored_filename (doc0 : Document)
    (extract : Except String (List Page))
    (embed : List (List Char) → Except String (List (List Int)))
    (upsert : List Point → Except String Unit)
    (uuidGen : Nat → String) (documentId : String) (fuel : Nat) :
    ∀ pt ∈ (process_pdf (some doc0) extract embed upsert uuidGen documentId fuel).points,
      pt.payload_filename = doc0.filename ∧ pt.payload_document_id = documentId := by
  intro pt hpt
  cases extract with
  | error e => simp [process_pdf] at hpt
  | ok pages =>
    simp only [process_pdf] at hpt
    split at hpt
    · simp at hpt
    · rename_i metas hm
      split at hpt
      · simp at hpt
      · split at hpt
        · simp at hpt
        · simp only at hpt
          rcases List.mem_map.mp hpt with ⟨⟨m, v⟩, hmem, rfl⟩
          exact ⟨rfl, metasForPages_docId uuidGen documentId fuel pages 0 metas hm m
            (List.of_mem_zip hmem).1⟩

/-- Witness for C9: the single point of a concrete run carries the stored
filename and the document id in its payload. -/
theorem c9_witness :
    Point.payload_filename
        { id := "u0", vector := [0], payload_document_id := "f1",
          payload_page_number := 1, payload_chunk_index := 0,
          payload_content := "hello".toList, payload_filename := "f1_report.pdf",
          payload_chunk_id := "f1_1_0" } = "f1_report.pdf"
    ∧ Point.payload_document_id
        { id := "u0", vector := [0], payload_document_id := "f1",
          payload_page_number := 1, payload_chunk_index := 0,
          payload_content := "hello".toList, payload_filename := "f1_report.pdf",
          payload_chunk_id := "f1_1_0" } = "f1" :=
  c9_payload_carries_stored_filename
    { id := "f1", filename := "f1_report.pdf", original_filename := "report.pdf",
      file_size := 0, content_hash := "h", processing_status := "pending",
      error_message := none, page_count := none, chunk_count := none }
    (Except.ok [{ page_number := 1, content := "hello".toList }])
    (fun ts => Except.ok (ts.map fun _ => [0]))
    (fun _ => Except.ok ()) (fun n => "u" ++ toString n) "f1" 1
    { id := "u0", vector := [0], payload_document_id := "f1",
      payload_page_number := 1, payload_chunk_index := 0,
      payload_content := "hello".toList, payload_filename := "f1_report.pdf",
      payload_chunk_id := "f1_1_0" }
    (by decide)

/- ### Claim C7 -/

lemma rfindBelow_none_iff (sub s : List Char) (a b : Nat) :
    ∀ k, rfindBelow sub s a b k = none ↔ ∀ p < k, ¬ OccIn sub s a b p := by
  intro k
  induction k with
  | zero => simp [rfindBelow]
  | succ n ih =>
    simp only [rfindBelow]
    split
    · rename_i hocc
      constructor
      · intro hsome
        simp at hsome
      · intro hall
        exact absurd hocc (hall n (Nat.lt_succ_self n))
    · rename_i hnocc
      rw [ih]
      constructor
      · intro hall p hp
        rcases Nat.lt_succ_iff_lt_or_eq.mp hp with h' | rfl
        · exact hall p h'
        · exact hnocc
      · intro hall p hp
        exact hall p (Nat.lt_succ_of_lt hp)

lemma rfindBelow_some (sub s : List Char) (a b : Nat) :
    ∀ k p, rfindBelow sub s a b k = some p →
      OccIn sub s a b p ∧ p < k ∧ ∀ q, OccIn sub s a b q → q < k → q ≤ p := by
  intro k
  induction k with
  | zero => intro p h; simp [rfindBelow] at h
  | succ n ih =>
    intro p h
    simp only [rfindBelow] at h
    split at h
    · rename_i hocc
      rcases Option.some.inj h with rfl
      exact ⟨hocc, Nat.lt_succ_self _, fun q _ hq => Nat.lt_succ_iff.mp hq⟩
    · rename_i hnocc
      obtain ⟨h1, h2, h3⟩ := ih p h
      refine ⟨h1, Nat.lt_succ_of_lt h2, ?_⟩
      intro q hq hqk
      rcases Nat.lt_succ_iff_lt_or_eq.mp hqk with h' | rfl
      · exact h3 q hq h'
      · exact absurd hq hnocc

lemma pyRfindNat_none_iff (sub s : List Char) (a b : Nat) :
    pyRfindNat sub s a b = none ↔ ∀ p, ¬ OccIn sub s a b p := by
  rw [pyRfindNat, rfindBelow_none_iff]
  constructor
  · intro hall p hp
    have hpb : p ≤ b := le_trans (Nat.le_add_right p sub.length) hp.2.1
    exact hall p (by omega) hp
  · intro hall p _
    exact hall p

lemma pyRfindNat_some (sub s : List Char) (a b p : Nat)
    (h : pyRfindNat sub s a b = some p) :
    OccIn sub s a b p ∧ ∀ q, OccIn sub s a b q → q ≤ p := by
  obtain ⟨h1, _, h3⟩ := rfindBelow_some sub s a b (b + 1) p h
  refine ⟨h1, fun q hq => h3 q hq ?_⟩
  have hqb : q ≤ b := le_trans (Nat.le_add_right q sub.length) hq.2.1
  omega

lemma pyRfindNat_of_exists (sub text : List Char) (a b : Nat)
    (hex : ∃ p, OccIn sub text a b p) :
    ∃ p, pyRfindNat sub text a b = some p ∧ OccIn sub text a b p
      ∧ ∀ q, OccIn sub text a b q → q ≤ p := by
  cases hfind : pyRfindNat sub text a b with
  | none =>
    obtain ⟨p0, hp0⟩ := hex
    exact absurd hp0 ((pyRfindNat_none_iff sub text a b).mp hfind p0)
  | some p =>
    obtain ⟨h1, h2⟩ := pyRfindNat_some sub text a b p hfind
    exact ⟨p, rfl, h1, h2⟩

lemma pyNorm_coe {len n : Nat} (h : n ≤ len) : pyNorm len (n : Int) = n := by
  unfold pyNorm
  rw [if_neg (by omega)]
  have ht : ((n : Int)).toNat = n := rfl
  rw [ht]
  exact min_eq_left h

lemma pyRfind_coe (sub s : List Char) (a b : Nat) (ha : a ≤ s.length)
    (hb : b ≤ s.length) :
    pyRfind sub s (a : Int) (b : Int)
      = match pyRfindNat sub s a b with
        | some p => (p : Int)
        | none => -1 := by
  unfold pyRfind
  rw [pyNorm_coe ha, pyNorm_coe hb]

lemma snapLoop_cons (text : List Char) (start e : Int) (punct : List Char)
    (rest : List (List Char)) :
    snapLoop text start e (punct :: rest)
      = if pyRfind punct text start e = -1 then snapLoop text start e rest
        else pyRfind punct text start e + 1 := rfl

/-- Claim C7 (confirmed): whenever the tentative boundary `start + chunkSize`
falls strictly inside the text, the boundary computation of `chunk_text`
searches the window `[start, start + chunkSize)` for the last occurrence of a
punctuation-space pair — trying period-space, then exclamation-space, then
question-space, in that priority order — and snaps the boundary to just after
the punctuation mark (`last + 1`) of the first candidate that occurs at all;
if none occurs in the window, the raw `start + chunkSize` cut is kept. -/
theorem c7_boundary_snap_characterization (text : List Char) (start cs : Nat)
    (h : start + cs < text.length) :
    ((∀ p, ¬ OccIn ['.', ' '] text start (start + cs) p) →
      (∀ p, ¬ OccIn ['!', ' '] text start (start + cs) p) →
      (∀ p, ¬ OccIn ['?', ' '] text start (start + cs) p) →
      snapEnd text (start : Int) cs = ((start + cs : Nat) : Int))
    ∧ ((∃ p, OccIn ['.', ' '] text start (start + cs) p) →
      ∃ p, OccIn ['.', ' '] text start (start + cs) p
        ∧ (∀ q, OccIn ['.', ' '] text start (start + cs) q → q ≤ p)
        ∧ snapEnd text (start : Int) cs = (p : Int) + 1)
    ∧ ((∀ p, ¬ OccIn ['.', ' '] text start (start + cs) p) →
      (∃ p, OccIn ['!', ' '] text start (start + cs) p) →
      ∃ p, OccIn ['!', ' '] text start (start + cs) p
        ∧ (∀ q, OccIn ['!', ' '] text start (start + cs) q → q ≤ p)
        ∧ snapEnd text (start : Int) cs = (p : Int) + 1)
    ∧ ((∀ p, ¬ OccIn ['.', ' '] text start (start + cs) p) →
      (∀ p, ¬ OccIn ['!', ' '] text start (start + cs) p) →
      (∃ p, OccIn ['?', ' '] text start (start + cs) p) →
      ∃ p, OccIn ['?', ' '] text start (start + cs) p
        ∧ (∀ q, OccIn ['?', ' '] text start (start + cs) q → q ≤ p)
        ∧ snapEnd text (start : Int) cs = (p : Int) + 1) := by
  have hltI : (start : Int) + (cs : Int) < (text.length : Int) := by exact_mod_cast h
  have hsnap : snapEnd text (start : Int) cs
      = snapLoop text (start : Int) ((start : Int) + (cs : Int)) sentencePuncts := by
    unfold snapEnd
    rw [if_pos hltI]
  have ha : start ≤ text.length := by omega
  have hble : start + cs ≤ text.length := by omega
  have hE : ((start : Int) + (cs : Int)) = (((start + cs : Nat)) : Int) := by push_cast; ring
  have hrfind : ∀ punct : List Char,
      pyRfind punct text (start : Int) ((start : Int) + (cs : Int))
        = match pyRfindNat punct text start (start + cs) with
          | some p => (p : Int)
          | none => -1 := by
    intro punct
    rw [hE]
    exact pyRfind_coe punct text start (start + cs) ha hble
  have hred : ∀ (punct : List Char) (rest : List (List Char)),
      pyRfindNat punct text start (start + cs) = none →
      snapLoop text (start : Int) ((start : Int) + (cs : Int)) (punct :: rest)
        = snapLoop text (start : Int) ((start : Int) + (cs : Int)) rest := by
    intro punct rest hn
    rw [snapLoop_cons, hrfind punct, hn]
    rfl
  have hsome : ∀ (punct : List Char) (rest : List (List Char)) (p : Nat),
      pyRfindNat punct text start (start + cs) = some p →
      snapLoop text (start : Int) ((start : Int) + (cs : Int)) (punct :: rest)
        = (p : Int) + 1 := by
    intro punct rest p hp
    rw [snapLoop_cons, hrfind punct, hp]
    show (if (p : Int) = -1 then _ else (p : Int) + 1) = (p : Int) + 1
    rw [if_neg (by omega)]
  refine ⟨?_, ?_, ?_, ?_⟩
  · intro hd hbg hq
    rw [hsnap]
    show snapLoop text (start : Int) ((start : Int) + (cs : Int))
      (['.', ' '] :: ['!', ' '] :: ['?', ' '] :: []) = _
    rw [hred _ _ ((pyRfindNat_none_iff _ _ _ _).mpr hd),
      hred _ _ ((pyRfindNat_none_iff _ _ _ _).mpr hbg),
      hred _ _ ((pyRfindNat_none_iff _ _ _ _).mpr hq)]
    show ((start : Int) + (cs : Int)) = _
    rw [hE]
  · intro hex
    obtain ⟨p, hfind, h1, h2⟩ := pyRfindNat_of_exists _ _ _ _ hex
    refine ⟨p, h1, h2, ?_⟩
    rw [hsnap]
    exact hsome _ _ p hfind
  · intro hd hex
    obtain ⟨p, hfind, h1, h2⟩ := pyRfindNat_of_exists _ _ _ _ hex
    refine ⟨p, h1, h2, ?_⟩
    rw [hsnap]
    show snapLoop text (start : Int) ((start : Int) + (cs : Int))
      (['.', ' '] :: ['!', ' '] :: ['?', ' '] :: []) = _
    rw [hred _ _ ((pyRfindNat_none_iff _ _ _ _).mpr hd)]
    exact hsome _ _ p hfind
  · intro hd hbg hex
    obtain ⟨p, hfind, h1, h2⟩ := pyRfindNat_of_exists _ _ _ _ hex
    refine ⟨p, h1, h2, ?_⟩
    rw [hsnap]
    show snapLoop text (start : Int) ((start : Int) + (cs : Int))
      (['.', ' '] :: ['!', ' '] :: ['?', ' '] :: []) = _
    rw [hred _ _ ((pyRfindNat_none_iff _ _ _ _).mpr hd),
      hred _ _ ((pyRfindNat_none_iff _ _ _ _).mpr hbg)]
    exact hsome _ _ p hfind

/-- Witness for C7: on `"abc def"` (no sentence punctuation) with
`start = 0, chunkSize = 5` the boundary stays at the raw cut `5`. -/
theorem c7_witness : snapEnd ("abc def".toList) 0 5 = 5 := by
  have hnodot : ∀ p, ¬ OccIn ['.', ' '] ("abc def".toList) 0 (0 + 5) p := by
    rintro p ⟨-, h2, h3⟩
    have hp : p ≤ 3 := by
      have h2' : p + 2 ≤ 5 := by simpa using h2
      omega
    interval_cases p <;> revert h3 <;> decide
  have hnobang : ∀ p, ¬ OccIn ['!', ' '] ("abc def".toList) 0 (0 + 5) p := by
    rintro p ⟨-, h2, h3⟩
    have hp : p ≤ 3 := by
      have h2' : p + 2 ≤ 5 := by simpa using h2
      omega
    interval_cases p <;> revert h3 <;> decide
  have hnoquest : ∀ p, ¬ OccIn ['?', ' '] ("abc def".toList) 0 (0 + 5) p := by
    rintro p ⟨-, h2, h3⟩
    have hp : p ≤ 3 := by
      have h2' : p + 2 ≤ 5 := by simpa using h2
      omega
    interval_cases p <;> revert h3 <;> decide
  exact (c7_boundary_snap_characterization ("abc def".toList) 0 5 (by decide)).1
    hnodot hnobang hnoquest
